import Mathlib

/-!
Shallow embedding of the reactive value core of the `gooey` repository
(`src/value.rs`): generation-versioned observable cells (`Dynamic`),
mutation tracking through the `Mutable` wrapper and `DynamicGuard`,
same-thread deadlock detection, the single-flight change notifier,
reference counting with on-disconnect callbacks, bidirectional `linked`
cells, and thread-local invalidation batching.

Machine integers: `Generation` wraps a `usize`; `Generation::next` uses
`wrapping_add(1)`, modelled as addition modulo `2 ^ 64`.
-/

namespace Gooey

/-- Width of `usize` on a 64-bit platform; `Generation(usize)` wraps at this
bound via `wrapping_add`. -/
def USIZE : Nat := 2 ^ 64

/-- Models `struct Generation(usize)` (value.rs line 2328): a revision tag. -/
abbrev Generation := Nat

/-- Models `Generation::next` (value.rs lines 2333-2335):
`Self(self.0.wrapping_add(1))`. -/
def Generation.next (g : Generation) : Generation := (g + 1) % USIZE

/-- Models `GenerationalValue<T>` (value.rs lines 1911-1915): a stored value
paired with its generation. -/
structure GenerationalValue (α : Type) where
  value : α
  generation : Generation
deriving Repr, DecidableEq

/-- Result of running the closure passed to `DynamicData::map_mut` against the
`Mutable` wrapper: the value left in the cell, whether a `DerefMut` access
occurred (`Mutable::deref_mut`, value.rs lines 656-661, sets the flag), and
the closure's return value. -/
structure MutOutcome (α ρ : Type) where
  value : α
  mutated : Bool
  result : ρ
deriving Repr, DecidableEq

/-- Result of `DynamicData::map_mut` (value.rs lines 1417-1433): the updated
cell, the closure's result, and whether `State::note_changed` ran (generation
bump + change callbacks), which happens exactly when the `Mutable` wrapper
recorded a mutation. -/
structure MapMutOutcome (α ρ : Type) where
  cell : GenerationalValue α
  result : ρ
  notified : Bool
deriving Repr, DecidableEq

/-- Models `DynamicData::map_mut` (value.rs lines 1417-1433): run the closure
on the value through the `Mutable` tracking wrapper; if a mutable dereference
occurred, `State::note_changed` (value.rs lines 1737-1748) advances the
generation by one and triggers the change callbacks. -/
def map_mut (f : α → MutOutcome α ρ) (c : GenerationalValue α) : MapMutOutcome α ρ :=
  let r := f c.value
  if r.mutated then
    { cell := { value := r.value, generation := c.generation.next }
      result := r.result
      notified := true }
  else
    { cell := c, result := r.result, notified := false }

/-- Models `ReplaceError<T>` (value.rs lines 1469-1474). -/
inductive ReplaceError (α : Type) where
  | NoChange (value : α)
  | Deadlock
deriving Repr, DecidableEq

/-- Models `Destination::try_replace` (value.rs lines 373-387) in the
deadlock-free case: compare through `Deref` (no mutation recorded); if equal,
return `NoChange` carrying the rejected value; otherwise `mem::replace`
through `DerefMut` (mutation recorded) and return the prior value. -/
def try_replace [DecidableEq α] (new_value : α) (c : GenerationalValue α) :
    MapMutOutcome α (Except (ReplaceError α) α) :=
  map_mut
    (fun v =>
      if v = new_value then
        { value := v, mutated := false, result := Except.error (ReplaceError.NoChange new_value) }
      else
        { value := new_value, mutated := true, result := Except.ok v })
    c

/-- Models `Destination::try_compare_swap` (value.rs lines 428-446) in the
deadlock-free case: compare the current value with `expected_current` through
`Deref`; on a match, `mem::replace` through `DerefMut` (mutation recorded even
when the new value equals the old one) returning the prior value; on a
mismatch, return a clone of the current value without mutating. -/
def try_compare_swap [DecidableEq α] (expected_current new_value : α)
    (c : GenerationalValue α) : MapMutOutcome α (Except α α) :=
  map_mut
    (fun v =>
      if v = expected_current then
        { value := new_value, mutated := true, result := Except.ok v }
      else
        { value := v, mutated := false, result := Except.error v })
    c

/-- Models `Destination::compare_swap` (value.rs lines 457-466) in the
deadlock-free case: `Ok` with the overwritten value on success, `Err` with the
current value on mismatch. -/
def compare_swap [DecidableEq α] (expected_current new_value : α)
    (c : GenerationalValue α) : Except α α × GenerationalValue α :=
  let o := try_compare_swap expected_current new_value c
  (o.result, o.cell)

/-- Models `Dynamic::new` (value.rs lines 887-893) combined with
`State::new` (value.rs lines 1719-1735): a fresh cell holds `value` at
`Generation::default()`, which is generation `0`. -/
def Dynamic_new (value : α) : GenerationalValue α :=
  { value := value, generation := 0 }

/-- Models `Source::get` (value.rs lines 77-82) via
`try_map_generational` → `map_ref` → `T::clone` on a cell that is not locked
by the current thread: a clone of the stored value. -/
def get (c : GenerationalValue α) : α := c.value

/-- Models `Source::try_map_generational` for `Dynamic` (value.rs lines
520-527, 563-568) in the deadlock-free case: apply a read-only function to the
generational value; the cell itself is untouched. -/
def try_map_generational (f : GenerationalValue α → ρ) (c : GenerationalValue α) :
    ρ × GenerationalValue α :=
  (f c, c)

/-! ### DynamicGuard: lock-guard mutation tracking (claim C5) -/

/-- Models `DynamicGuard` (value.rs lines 1967-1972): the locked cell state
plus the `accessed_mut` and `prevent_notifications` flags. -/
structure DynamicGuard (α : Type) where
  cell : GenerationalValue α
  accessed_mut : Bool
  prevent_notifications : Bool
deriving Repr, DecidableEq

/-- Models `Dynamic::lock` (value.rs lines 1088-1115) in the deadlock-free
case: a fresh guard with `accessed_mut = false` and
`prevent_notifications = false`. -/
def lock (c : GenerationalValue α) : DynamicGuard α :=
  { cell := c, accessed_mut := false, prevent_notifications := false }

/-- Models a write through `DynamicGuard::deref_mut` (value.rs lines
1999-2004): the access sets `accessed_mut` and stores the new contents. -/
def guard_write (v : α) (g : DynamicGuard α) : DynamicGuard α :=
  { g with cell := { g.cell with value := v }, accessed_mut := true }

/-- Models a read through `DynamicGuard::deref` (value.rs lines 1991-1997):
returns the value, leaving the guard untouched. -/
def guard_read (g : DynamicGuard α) : α := g.cell.value

/-- Models `Drop for DynamicGuard` (value.rs lines 2006-2013): when a mutable
access occurred and notifications were not suppressed, `State::note_changed`
advances the generation once and fires change callbacks; otherwise the cell is
returned untouched. The boolean reports whether callbacks were triggered. -/
def guard_drop (g : DynamicGuard α) : GenerationalValue α × Bool :=
  if g.accessed_mut && !g.prevent_notifications then
    ({ g.cell with generation := g.cell.generation.next }, true)
  else
    (g.cell, false)

/-! ### Same-thread deadlock detection (claim C2) -/

/-- Thread identifiers in the lock model. -/
abbrev ThreadId := Nat

/-- Outcome of `DynamicData::state` (value.rs lines 1377-1405) as observed by
the calling thread: the guard is acquired; or the owner recorded in
`during_callback_state` is this very thread and `DeadlockError` is returned
immediately; or another thread owns the lock and the caller blocks on the
condition variable until the lock is free. -/
inductive LockAttempt (ρ : Type) where
  | proceeds (r : ρ)
  | deadlock
  | blocks
deriving Repr, DecidableEq

/-- Models the decision in `DynamicData::state` (value.rs lines 1377-1405):
`holder` is the `LockState.locked_thread` stored in `during_callback_state`
while a `DynamicMutexGuard` is alive (`None` when the lock is free). -/
def state_attempt (current : ThreadId) (holder : Option ThreadId) : LockAttempt Unit :=
  match holder with
  | none => .proceeds ()
  | some t => if t = current then .deadlock else .blocks

/-- Lifts a lock attempt into an operation body, as every `try_*` API first
routes through `DynamicData::state`. -/
def with_state (current : ThreadId) (holder : Option ThreadId) (body : ρ) : LockAttempt ρ :=
  match state_attempt current holder with
  | .proceeds _ => .proceeds body
  | .deadlock => .deadlock
  | .blocks => .blocks

/-- Models `Dynamic::try_lock` (value.rs lines 1101-1107): acquire the state
guard or fail with `DeadlockError`. -/
def try_lock (current : ThreadId) (holder : Option ThreadId) (c : GenerationalValue α) :
    LockAttempt (DynamicGuard α) :=
  with_state current holder (lock c)

/-- Models `Dynamic::try_map_mut` → `DynamicData::map_mut` (value.rs lines
619-623, 1417-1433) including the lock acquisition. -/
def try_map_mut_locked (current : ThreadId) (holder : Option ThreadId)
    (f : α → MutOutcome α ρ) (c : GenerationalValue α) : LockAttempt (MapMutOutcome α ρ) :=
  with_state current holder (map_mut f c)

/-- Models `Source::try_map_generational` for `Dynamic` (value.rs lines
520-527) including the lock acquisition. -/
def try_map_generational_locked (current : ThreadId) (holder : Option ThreadId)
    (f : GenerationalValue α → ρ) (c : GenerationalValue α) :
    LockAttempt (ρ × GenerationalValue α) :=
  with_state current holder (try_map_generational f c)

/-- Models `Destination::try_replace` (value.rs lines 373-387) including the
lock acquisition: a `DeadlockError` from `try_map_mut` becomes
`ReplaceError::Deadlock`. -/
def try_replace_locked [DecidableEq α] (current : ThreadId) (holder : Option ThreadId)
    (new_value : α) (c : GenerationalValue α) :
    LockAttempt (MapMutOutcome α (Except (ReplaceError α) α)) :=
  with_state current holder (try_replace new_value c)

/-! ### Single-flight executor with a self-referential callback (claim C1) -/

/-- State of a cell whose only registered change callback is the
self-referential `a.set(current + 1)` of the `map_cycle_is_finite` test
(value.rs lines 3635-3655): the stored value, its generation, and whether the
`ChangeCallbacksData.currently_executing` slot (value.rs line 1809) names the
current thread. -/
structure SelfIncCell where
  value : Nat
  generation : Generation
  executing : Bool
deriving Repr, DecidableEq

/-- Models `Destination::set` on a cell whose sole persisted callback is
`|current| a.set(current + 1)`, following `try_replace` → `map_mut` →
`ChangeCallbacks::drop` (value.rs lines 1839-1894). An equal value is a
no-op (`ReplaceError::NoChange`). Otherwise the value is stored and the
generation advanced; then, in `ChangeCallbacks::drop`, if the current thread
is already the executor the re-triggered notification returns immediately,
while otherwise this thread becomes the executor, runs the callback — which
reads the freshly stored value and re-enters `set` with that value plus one —
and finally clears the executor flag. `fuel` bounds the re-entrancy depth of
the shallow embedding; the theorems show the result is fuel-independent. -/
def set_self_inc : Nat → Nat → SelfIncCell → SelfIncCell
  | 0, _, s => s
  | fuel + 1, new_value, s =>
    if new_value = s.value then s
    else
      let s1 : SelfIncCell :=
        { value := new_value, generation := s.generation.next, executing := s.executing }
      if s1.executing then s1
      else
        let s2 := set_self_inc fuel (s1.value + 1) { s1 with executing := true }
        { s2 with executing := false }

/-! ### Reference counting and disconnect (claim C6) -/

/-- Reference-counting facet of a cell: the `Arc` strong count of the shared
`DynamicData` (each `Dynamic` clone and each `DynamicReader` holds one), the
`State::readers` tally, the pending on-disconnect callbacks
(`State::on_disconnect`, `None` once taken), how many on-disconnect callbacks
have been invoked, and the value's generation. -/
structure RefState where
  strong : Nat
  readers : Nat
  on_disconnect : Option Nat
  fired : Nat
  generation : Generation
deriving Repr, DecidableEq

/-- A `DynamicReader` (value.rs lines 2083-2086): records the last generation
it observed. -/
structure ReaderHandle where
  read_generation : Generation
deriving Repr, DecidableEq

/-- Models `Dynamic::new` at the reference-counting level: one strong handle,
no readers, an empty pending on-disconnect list. -/
def RefState.new : RefState :=
  { strong := 1, readers := 0, on_disconnect := some 0, fired := 0, generation := 0 }

/-- Models `Dynamic::instances` (value.rs lines 913-915):
`Arc::strong_count - readers`. -/
def RefState.instances (s : RefState) : Nat := s.strong - s.readers

/-- Models `Dynamic::create_reader` (value.rs lines 1059-1065): increments
`State::readers`, clones the `Arc` into the reader, and records the current
generation as the reader's `read_generation`. -/
def RefState.create_reader (s : RefState) : RefState × ReaderHandle :=
  ({ s with readers := s.readers + 1, strong := s.strong + 1 },
   { read_generation := s.generation })

/-- Models `DynamicReader::on_disconnect` (value.rs lines 2186-2195): pushes a
callback onto the pending list if it has not been taken yet. -/
def RefState.register_on_disconnect (s : RefState) : RefState :=
  match s.on_disconnect with
  | some n => { s with on_disconnect := some (n + 1) }
  | none => s

/-- Models `Drop for Dynamic` (value.rs lines 1288-1309) followed by the
`Arc` decrement: if this is the last non-reader strong holder
(`Arc::strong_count == readers + 1`), `State::cleanup` takes the
on-disconnect list and `StateCleanup`'s drop invokes every callback in it;
the strong count then decreases by one. -/
def RefState.drop_dynamic (s : RefState) : RefState :=
  if s.strong = s.readers + 1 then
    { s with
      fired := s.fired + (s.on_disconnect.getD 0)
      on_disconnect := none
      strong := s.strong - 1 }
  else
    { s with strong := s.strong - 1 }

/-- Models `DynamicReader::connected` (value.rs lines 2163-2167):
`readers < Arc::strong_count && on_disconnect.is_some()`. -/
def RefState.connected (s : RefState) : Bool :=
  decide (s.readers < s.strong) && s.on_disconnect.isSome

/-- Models `DynamicReader::block_until_updated` (value.rs lines 2136-2160) as
observed on a quiescent cell: `some true` when the generation differs from the
reader's recorded one, `some false` when no writers remain
(`readers == Arc::strong_count` or the on-disconnect list was taken), and
`none` when the call would block waiting for a change. -/
def RefState.block_until_updated (r : ReaderHandle) (s : RefState) : Option Bool :=
  if s.generation ≠ r.read_generation then some true
  else if s.readers = s.strong || s.on_disconnect.isNone then some false
  else none

/-! ### Bidirectional linked cells (claim C7) -/

/-- Combined state of the two cells created by `Dynamic::linked` (value.rs
lines 945-983): the original `t` cell and the derived `r` cell, each with its
`ChangeCallbacksData.currently_executing` flag restricted to the current
thread. `linked` registers exactly one callback on each side: on `t`, convert
with `t_into_r` and `r.set` any produced value; on `r`, convert with
`r_into_t` and `t.replace` any produced value. -/
structure LinkState (τ ρ : Type) where
  t : τ
  r : ρ
  tExec : Bool
  rExec : Bool
deriving Repr, DecidableEq

/-- A pending write in the linked-cell pair: either a write to the `t` side or
a write to the `r` side. -/
inductive LinkOp (τ ρ : Type) where
  | toT (v : τ)
  | toR (v : ρ)
deriving Repr, DecidableEq

/-- Models a write to either side of a `linked` pair, following
`Destination::set`/`replace` (equality short-circuit), the generation bump,
and `ChangeCallbacks::drop` (value.rs lines 1839-1894): if the written cell's
executor flag is already set for this thread, the re-triggered notification is
absorbed; otherwise this thread becomes that cell's executor, runs the
registered conversion callback — which reads the freshly stored value,
converts it, and re-enters the write path on the other cell — and clears the
flag. `fuel` bounds re-entrancy depth of the shallow embedding. -/
def link_run [DecidableEq τ] [DecidableEq ρ] (t_into_r : τ → ρ) (r_into_t : ρ → Option τ) :
    Nat → LinkOp τ ρ → LinkState τ ρ → LinkState τ ρ
  | 0, _, st => st
  | fuel + 1, .toT v, st =>
    if v = st.t then st
    else
      let st1 := { st with t := v }
      if st1.tExec then st1
      else
        let st2 := link_run t_into_r r_into_t fuel (.toR (t_into_r st1.t))
          { st1 with tExec := true }
        { st2 with tExec := false }
  | fuel + 1, .toR v, st =>
    if v = st.r then st
    else
      let st1 := { st with r := v }
      if st1.rExec then st1
      else
        let st2 :=
          match r_into_t st1.r with
          | some u => link_run t_into_r r_into_t fuel (.toT u) { st1 with rExec := true }
          | none => { st1 with rExec := true }
        { st2 with rExec := false }

/-- Models `Destination::set` on the `t` (source) side of a linked pair. -/
def link_set_t [DecidableEq τ] [DecidableEq ρ] (t_into_r : τ → ρ) (r_into_t : ρ → Option τ)
    (fuel : Nat) (v : τ) (st : LinkState τ ρ) : LinkState τ ρ :=
  link_run t_into_r r_into_t fuel (.toT v) st

/-- Models `Destination::set` on the `r` (derived) side of a linked pair. -/
def link_set_r [DecidableEq τ] [DecidableEq ρ] (t_into_r : τ → ρ) (r_into_t : ρ → Option τ)
    (fuel : Nat) (v : ρ) (st : LinkState τ ρ) : LinkState τ ρ :=
  link_run t_into_r r_into_t fuel (.toR v) st

/-- Value of a decimal digit character, `None` for any other character. -/
def char_digit (c : Char) : Option Nat :=
  let n := c.toNat
  if 48 ≤ n ∧ n ≤ 57 then some (n - 48) else none

/-- Accumulating decimal parser over the digit characters of a string,
following the checked accumulation of `from_str_radix`: each step computes
`acc * 10 + d` through `checked_mul`/`checked_add` on a `usize`, so the
parse fails as `PosOverflow` as soon as the accumulator would reach
`2 ^ 64`, and fails as `InvalidDigit` on any non-digit character. -/
def parse_digits : List Char → Nat → Option Nat
  | [], acc => some acc
  | c :: rest, acc =>
    match char_digit c with
    | some d => if acc * 10 + d < USIZE then parse_digits rest (acc * 10 + d) else none
    | none => none

/-- The forward conversion used by `Dynamic::linked_string` (value.rs lines
994-999): `ToString::to_string` on a `usize`, modelled by Lean's decimal
printer on `Nat`. -/
def usize_to_string (n : Nat) : String := toString n

/-- The backward conversion of `linked_string` (value.rs line 998):
`s.parse::<usize>().ok()`, which is `usize::from_str` via `from_str_radix`
in base 10: an optional leading `+` sign (a leading `-` is only a sign for
signed integer types, so for `usize` it fails as an invalid digit), at least
one digit after the sign (empty input and a bare `+` fail), every remaining
character a decimal digit, and checked accumulation that fails once the
value would overflow a 64-bit `usize`. -/
def string_to_usize (s : String) : Option Nat :=
  match s.data with
  | [] => none
  | '+' :: rest =>
    match rest with
    | [] => none
    | l => parse_digits l 0
  | l => parse_digits l 0

/-! ### Invalidation batching (claim C8) -/

/-- Models `InvalidationBatchGuard` (value.rs lines 3572-3576), the
thread-local `GUARD`: the nesting depth and the merged pending invalidation
state, here abstracted to the set of render targets to invalidate. -/
structure InvalidationBatchGuard where
  nesting : Nat
  state : Finset Nat
deriving DecidableEq

/-- The thread-local batching world: the guard plus the observable log of
flushes, each flush being one `InvalidationState::invoke` event with the set
of targets it invalidated. -/
structure BatchWorld where
  guard : InvalidationBatchGuard
  flushes : List (Finset Nat)
deriving DecidableEq

/-- Models the first half of `InvalidationBatch::batch` (value.rs lines
3593-3607): entering a batch increments the thread-local nesting depth. -/
def enter_batch (w : BatchWorld) : BatchWorld :=
  { w with guard := { w.guard with nesting := w.guard.nesting + 1 } }

/-- Models the second half of `InvalidationBatch::batch` (value.rs lines
3601-3606): leaving a batch decrements the depth; only when the depth returns
to zero is the merged state invoked, producing exactly one flush event. -/
def exit_batch (w : BatchWorld) : BatchWorld :=
  let n := w.guard.nesting - 1
  if n = 0 then
    { guard := { nesting := 0, state := ∅ }, flushes := w.flushes ++ [w.guard.state] }
  else
    { w with guard := { w.guard with nesting := n } }

/-- Models `State::note_changed` routing its invalidation state through
`InvalidationBatch::take_invalidations` (value.rs lines 1740-1742 and
3620-3632): while a batch is active on this thread (`nesting > 0`) the
per-cell invalidations are merged into the thread-local accumulator; otherwise
`InvalidationState::invoke` flushes them immediately as their own event. -/
def note_changed_invalidation (inv : Finset Nat) (w : BatchWorld) : BatchWorld :=
  if w.guard.nesting > 0 then
    { w with guard := { w.guard with state := w.guard.state ∪ inv } }
  else
    { w with flushes := w.flushes ++ [inv] }

/-- Models `InvalidationBatch::batch(body)` where the body performs the listed
per-cell tracked mutations: enter, run each `note_changed`, exit. -/
def batch_run (invs : List (Finset Nat)) (w : BatchWorld) : BatchWorld :=
  exit_batch (invs.foldl (fun acc inv => note_changed_invalidation inv acc) (enter_batch w))

/-- Union of a list of per-cell invalidation sets. -/
def union_all (invs : List (Finset Nat)) : Finset Nat :=
  invs.foldl (· ∪ ·) ∅

/-! ### DynamicReader read-generation tracking (claim C10) -/

/-- Models `Source::try_map_generational` for `DynamicReader` (value.rs lines
589-598) in the deadlock-free case: the reader records the observed generation
in its `read_generation` before mapping. -/
def reader_try_map_generational (f : GenerationalValue α → ρ) (_r : ReaderHandle)
    (c : GenerationalValue α) : ρ × ReaderHandle :=
  (f c, { read_generation := c.generation })

/-- Models `Source::get` on a `DynamicReader` (value.rs lines 77-82), which
routes through `try_map_generational`. -/
def reader_get (r : ReaderHandle) (c : GenerationalValue α) : α × ReaderHandle :=
  reader_try_map_generational (fun g => g.value) r c

/-- Models `Source::map_ref` on a `DynamicReader` (value.rs lines 66-68),
which routes through `try_map_generational`. -/
def reader_map_ref (f : α → ρ) (r : ReaderHandle) (c : GenerationalValue α) :
    ρ × ReaderHandle :=
  reader_try_map_generational (fun g => f g.value) r c

/-- Models `Source::generation` on a `DynamicReader` (value.rs lines 56-58),
which routes through `try_map_generational`. -/
def reader_generation (r : ReaderHandle) (c : GenerationalValue α) :
    Generation × ReaderHandle :=
  reader_try_map_generational (fun g => g.generation) r c

/-- Models `DynamicReader::has_updated` (value.rs lines 2122-2125): true
exactly when the cell's generation differs from the reader's recorded one. -/
def has_updated (r : ReaderHandle) (c : GenerationalValue α) : Bool :=
  decide (c.generation ≠ r.read_generation)

/-! ## Theorems -/

/-- Claim C3: on a `Dynamic<i32>` initialized to 1, `compare_swap(&1, 2)`
returns `Ok(1)`, `compare_swap(&1, 0)` then returns `Err(2)` leaving the value
unchanged, `compare_swap(&2, 0)` returns `Ok(2)`, and a final `get()` returns
0; in general `compare_swap` replaces the value and returns `Ok` with the
prior value exactly when the current value equals the expected one, and
otherwise returns `Err` with a clone of the current value without modifying
the cell. -/
theorem compare_swap_spec :
    (∀ (c : GenerationalValue Int) (e n : Int),
      compare_swap e n c =
        if c.value = e then
          (Except.ok c.value, { value := n, generation := c.generation.next })
        else (Except.error c.value, c)) ∧
    compare_swap 1 2 (Dynamic_new (1 : Int)) =
      (Except.ok 1, { value := 2, generation := 1 }) ∧
    compare_swap 1 0 ({ value := 2, generation := 1 } : GenerationalValue Int) =
      (Except.error 2, { value := 2, generation := 1 }) ∧
    compare_swap 2 0 ({ value := 2, generation := 1 } : GenerationalValue Int) =
      (Except.ok 2, { value := 0, generation := 2 }) ∧
    get ({ value := 0, generation := 2 } : GenerationalValue Int) = 0 := by
  refine ⟨?_, by rfl, by rfl, by rfl, by rfl⟩
  intro c e n
  by_cases h : c.value = e <;>
    simp [compare_swap, try_compare_swap, map_mut, h]

/-- Claim C4: `try_replace` with a new value equal to the currently stored one
returns the `NoChange` error carrying back the rejected value and leaves the
cell untouched (value and generation both); it replaces the value, advances
the generation and returns `Ok` with the prior contents exactly when the new
value differs. -/
theorem try_replace_no_change_spec {α : Type} [DecidableEq α]
    (c : GenerationalValue α) (n : α) :
    try_replace n c =
      if c.value = n then
        { cell := c, result := Except.error (ReplaceError.NoChange n), notified := false }
      else
        { cell := { value := n, generation := c.generation.next }
          result := Except.ok c.value
          notified := true } := by
  by_cases h : c.value = n <;> simp [try_replace, map_mut, h]

/-- Claim C5: `Dynamic::new(v).get() == v`; a fresh cell's generation is the
baseline 0; a guard release that performed a tracked mutable access advances
the generation by exactly one (even across several writes under one guard),
read-only access never advances it, and `map_mut` advances the generation
exactly when the `Mutable` wrapper recorded a mutation. -/
theorem new_get_generation_spec {α ρ : Type} (v w w2 : α)
    (c : GenerationalValue α) (f : α → MutOutcome α ρ)
    (h : c.generation + 1 < USIZE) :
    get (Dynamic_new v) = v ∧
    (Dynamic_new v).generation = 0 ∧
    guard_drop (lock c) = (c, false) ∧
    guard_drop (guard_write w (lock c)) =
      ({ value := w, generation := c.generation.next }, true) ∧
    guard_drop (guard_write w2 (guard_write w (lock c))) =
      ({ value := w2, generation := c.generation.next }, true) ∧
    (map_mut f c).notified = (f c.value).mutated ∧
    (map_mut f c).cell.generation =
      (if (f c.value).mutated then c.generation.next else c.generation) ∧
    c.generation.next = c.generation + 1 := by
  refine ⟨rfl, rfl, rfl, rfl, rfl, ?_, ?_, ?_⟩
  · by_cases hm : (f c.value).mutated <;> simp [map_mut, hm]
  · by_cases hm : (f c.value).mutated <;> simp [map_mut, hm]
  · exact Nat.mod_eq_of_lt h

/-- Closed witness for claim C5 at a concrete cell. -/
theorem new_get_generation_spec_witness :
    (3 : Nat) + 1 < USIZE ∧
    (get (Dynamic_new (5 : Nat)) = 5 ∧
     (Dynamic_new (5 : Nat)).generation = 0 ∧
     guard_drop (lock ({ value := 9, generation := 3 } : GenerationalValue Nat)) =
       (({ value := 9, generation := 3 } : GenerationalValue Nat), false) ∧
     guard_drop (guard_write 6 (lock ({ value := 9, generation := 3 } : GenerationalValue Nat))) =
       (({ value := 6, generation := Generation.next 3 } : GenerationalValue Nat), true) ∧
     guard_drop (guard_write 7 (guard_write 6
         (lock ({ value := 9, generation := 3 } : GenerationalValue Nat)))) =
       (({ value := 7, generation := Generation.next 3 } : GenerationalValue Nat), true) ∧
     (map_mut (fun x => ({ value := x, mutated := false, result := 0 } : MutOutcome Nat Nat))
        ({ value := 9, generation := 3 } : GenerationalValue Nat)).notified = false ∧
     (map_mut (fun x => ({ value := x, mutated := false, result := 0 } : MutOutcome Nat Nat))
        ({ value := 9, generation := 3 } : GenerationalValue Nat)).cell.generation = 3 ∧
     Generation.next 3 = 3 + 1) :=
  ⟨by norm_num [USIZE],
   new_get_generation_spec 5 6 7 { value := 9, generation := 3 }
     (fun x => ({ value := x, mutated := false, result := 0 } : MutOutcome Nat Nat))
     (by norm_num [USIZE])⟩

/-- Claim C9: a successful `try_compare_swap` always counts as a tracked
mutation even when the new value equals the stored one: with the current value
equal to `expected_current` and `new_value` equal to the current value, it
still returns `Ok`, advances the generation by one, and triggers the change
callbacks (`notified = true`), whereas `try_replace` of the same value reports
`NoChange` without notifying. -/
theorem compare_swap_tracks_mutation {α : Type} [DecidableEq α]
    (c : GenerationalValue α) :
    try_compare_swap c.value c.value c =
      { cell := { value := c.value, generation := c.generation.next }
        result := Except.ok c.value
        notified := true } ∧
    try_replace c.value c =
      { cell := c
        result := Except.error (ReplaceError.NoChange c.value)
        notified := false } := by
  constructor <;> simp [try_compare_swap, try_replace, map_mut]

/-- Claim C10: every successful read through a `DynamicReader`'s `Source`
interface (`try_map_generational`, and therefore `get`, `map_ref` and
`generation`) records the observed generation as the reader's
`read_generation`, so immediately after the read `has_updated` is false; and
`has_updated` is true exactly when the cell's generation differs from the
reader's recorded one. -/
theorem reader_read_updates_generation {α ρ : Type} (r : ReaderHandle)
    (c : GenerationalValue α) (f : GenerationalValue α → ρ) (g : α → ρ) :
    (reader_try_map_generational f r c).2.read_generation = c.generation ∧
    has_updated (reader_try_map_generational f r c).2 c = false ∧
    (reader_get r c).2.read_generation = c.generation ∧
    has_updated (reader_get r c).2 c = false ∧
    (reader_map_ref g r c).2.read_generation = c.generation ∧
    has_updated (reader_map_ref g r c).2 c = false ∧
    (reader_generation r c).2.read_generation = c.generation ∧
    has_updated (reader_generation r c).2 c = false ∧
    (has_updated r c = true ↔ c.generation ≠ r.read_generation) := by
  simp [reader_try_map_generational, reader_get, reader_map_ref, reader_generation,
    has_updated]

/-- Claim C6: a freshly created cell has `instances() == 1` and
`readers() == 0`; after creating one reader, registering an on-disconnect
callback, and dropping the last strong handle, the callback fires exactly
once, the pending list is gone, `connected()` is false, and
`block_until_updated()` returns false. -/
theorem reader_disconnect_scenario :
    RefState.new.instances = 1 ∧ RefState.new.readers = 0 ∧
    (let p := RefState.new.create_reader
     let s1 := p.1.register_on_disconnect
     let s2 := s1.drop_dynamic
     s2.fired = 1 ∧ s2.on_disconnect = none ∧ s2.connected = false ∧
       RefState.block_until_updated p.2 s2 = some false) := by
  decide

/-- Claim C2: when the calling thread already holds the cell's exclusive lock,
`try_lock`, `try_map_mut`, `try_map_generational` and `try_replace` all return
a `DeadlockError` immediately; when a different thread holds it, the same
calls block until the lock is free; and with the lock free they proceed. -/
theorem same_thread_relock_deadlocks {α : Type} [DecidableEq α]
    (current other : ThreadId) (h : other ≠ current) (c : GenerationalValue α)
    (f : α → MutOutcome α Nat) (g : GenerationalValue α → Nat) (n : α) :
    try_lock current (some current) c = LockAttempt.deadlock ∧
    try_map_mut_locked current (some current) f c = LockAttempt.deadlock ∧
    try_map_generational_locked current (some current) g c = LockAttempt.deadlock ∧
    try_replace_locked current (some current) n c = LockAttempt.deadlock ∧
    try_lock current (some other) c = LockAttempt.blocks ∧
    try_map_mut_locked current (some other) f c = LockAttempt.blocks ∧
    try_map_generational_locked current (some other) g c = LockAttempt.blocks ∧
    try_replace_locked current (some other) n c = LockAttempt.blocks ∧
    try_lock current none c = LockAttempt.proceeds (lock c) := by
  simp [try_lock, try_map_mut_locked, try_map_generational_locked, try_replace_locked,
    with_state, state_attempt, h]

/-- Closed witness for claim C2 at concrete thread ids and a concrete cell. -/
theorem same_thread_relock_deadlocks_witness :
    (1 : ThreadId) ≠ 0 ∧
    (try_lock 0 (some 0) (Dynamic_new (7 : Nat)) = LockAttempt.deadlock ∧
     try_map_mut_locked 0 (some 0)
       (fun x => { value := x, mutated := false, result := (0 : Nat) })
       (Dynamic_new (7 : Nat)) = LockAttempt.deadlock ∧
     try_map_generational_locked 0 (some 0) (fun _ => (0 : Nat))
       (Dynamic_new (7 : Nat)) = LockAttempt.deadlock ∧
     try_replace_locked 0 (some 0) 3 (Dynamic_new (7 : Nat)) = LockAttempt.deadlock ∧
     try_lock 0 (some 1) (Dynamic_new (7 : Nat)) = LockAttempt.blocks ∧
     try_map_mut_locked 0 (some 1)
       (fun x => { value := x, mutated := false, result := (0 : Nat) })
       (Dynamic_new (7 : Nat)) = LockAttempt.blocks ∧
     try_map_generational_locked 0 (some 1) (fun _ => (0 : Nat))
       (Dynamic_new (7 : Nat)) = LockAttempt.blocks ∧
     try_replace_locked 0 (some 1) 3 (Dynamic_new (7 : Nat)) = LockAttempt.blocks ∧
     try_lock 0 none (Dynamic_new (7 : Nat)) =
       LockAttempt.proceeds (lock (Dynamic_new (7 : Nat)))) :=
  ⟨by decide,
   same_thread_relock_deadlocks 0 1 (by decide) (Dynamic_new 7)
     (fun x => { value := x, mutated := false, result := 0 }) (fun _ => 0) 3⟩

/-- Claim C1: with a persistent self-referential callback that writes the
observed value plus one back into the cell, `a.set(1)` terminates and leaves
`a.get() == 2`: the callback's own write is absorbed by the same-thread
single-flight executor after exactly one extra generation bump, and the
result is independent of the re-entrancy fuel once it is at least 2 (no
unbounded recursion). -/
theorem set_self_referential_converges (v0 : Nat) (g : Generation) (fuel : Nat)
    (hv : v0 ≠ 1) (hf : 2 ≤ fuel) :
    set_self_inc fuel 1 { value := v0, generation := g, executing := false } =
      { value := 2, generation := g.next.next, executing := false } := by
  obtain ⟨k, rfl⟩ : ∃ k, fuel = k + 2 := ⟨fuel - 2, by omega⟩
  have h1 : ¬((1 : Nat) = v0) := fun h => hv h.symm
  simp [set_self_inc, h1]

/-- Closed witness for claim C1 at the initial value 0 of the
`map_cycle_is_finite` test. -/
theorem set_self_referential_converges_witness :
    (0 : Nat) ≠ 1 ∧ 2 ≤ 2 ∧
    set_self_inc 2 1 { value := 0, generation := 0, executing := false } =
      { value := 2, generation := Generation.next (Generation.next 0), executing := false } :=
  ⟨by decide, by decide, set_self_referential_converges 0 0 2 (by decide) (by decide)⟩

/-- Folding union over a list of sets starting from an accumulator equals the
accumulator unioned with the fold from the empty set. -/
theorem foldl_union_eq (a : Finset Nat) (invs : List (Finset Nat)) :
    invs.foldl (· ∪ ·) a = a ∪ union_all invs := by
  induction invs generalizing a with
  | nil => simp [union_all]
  | cons i is ih =>
    simp only [List.foldl, union_all]
    rw [ih (a ∪ i), ih (∅ ∪ i), Finset.empty_union, Finset.union_assoc]

/-- While a batch is active, folding tracked mutations merges all their
invalidation sets into the thread-local accumulator and flushes nothing. -/
theorem foldl_note_changed (invs : List (Finset Nat)) (w : BatchWorld)
    (h : 0 < w.guard.nesting) :
    invs.foldl (fun acc inv => note_changed_invalidation inv acc) w =
      { w with guard := { w.guard with state := w.guard.state ∪ union_all invs } } := by
  induction invs generalizing w with
  | nil => simp [union_all]
  | cons i is ih =>
    simp only [List.foldl]
    rw [show note_changed_invalidation i w =
        { w with guard := { w.guard with state := w.guard.state ∪ i } } by
      simp [note_changed_invalidation, h]]
    rw [ih _ (by simpa using h)]
    simp only [union_all, List.foldl]
    rw [show is.foldl (· ∪ ·) (∅ ∪ i) = (∅ ∪ i) ∪ union_all is from foldl_union_eq _ _]
    simp [Finset.union_assoc, union_all]

/-- Claim C8: invalidation batching is thread-local, nestable, and flushes
exactly once: entering a batch increments the depth counter; while the depth
is positive every per-cell invalidation is merged into the thread-local
accumulator and nothing is flushed; leaving a nested (non-outermost) batch
never flushes; and an outermost batch flushes the merged invalidation set as
exactly one event. -/
theorem invalidation_batch_spec (w wa wn wo : BatchWorld) (inv : Finset Nat)
    (invs : List (Finset Nat)) (ha : 0 < wa.guard.nesting)
    (hn : 2 ≤ wn.guard.nesting) (ho : wo.guard.nesting = 0)
    (hs : wo.guard.state = ∅) :
    (enter_batch w).guard.nesting = w.guard.nesting + 1 ∧
    note_changed_invalidation inv wa =
      { wa with guard := { wa.guard with state := wa.guard.state ∪ inv } } ∧
    (note_changed_invalidation inv wa).flushes = wa.flushes ∧
    (exit_batch wn).flushes = wn.flushes ∧
    (exit_batch wn).guard.nesting = wn.guard.nesting - 1 ∧
    (batch_run invs wo).flushes = wo.flushes ++ [union_all invs] ∧
    (batch_run invs wo).guard.nesting = 0 := by
  have h1 : ¬(wn.guard.nesting - 1 = 0) := by omega
  refine ⟨rfl, by simp [note_changed_invalidation, ha],
    by simp [note_changed_invalidation, ha],
    by simp [exit_batch, h1],
    by simp [exit_batch, h1], ?_, ?_⟩
  · rw [batch_run, foldl_note_changed _ _ (by simp [enter_batch])]
    simp [enter_batch, exit_batch, ho, hs]
  · rw [batch_run, foldl_note_changed _ _ (by simp [enter_batch])]
    simp [enter_batch, exit_batch, ho, hs]

/-- Closed witness for claim C8 at concrete worlds and invalidation sets. -/
theorem invalidation_batch_spec_witness :
    0 < (({ guard := { nesting := 1, state := ∅ }, flushes := [] } : BatchWorld)).guard.nesting ∧
    2 ≤ (({ guard := { nesting := 2, state := {5} }, flushes := [] } : BatchWorld)).guard.nesting ∧
    (({ guard := { nesting := 0, state := ∅ }, flushes := [] } : BatchWorld)).guard.nesting = 0 ∧
    (({ guard := { nesting := 0, state := ∅ }, flushes := [] } : BatchWorld)).guard.state = ∅ ∧
    ((enter_batch { guard := { nesting := 0, state := ∅ }, flushes := [] }).guard.nesting =
        ({ guard := { nesting := 0, state := ∅ }, flushes := [] } : BatchWorld).guard.nesting
          + 1 ∧
      note_changed_invalidation {3} { guard := { nesting := 1, state := ∅ }, flushes := [] } =
        { guard := { nesting := 1, state := (∅ : Finset Nat) ∪ {3} }, flushes := [] } ∧
      (note_changed_invalidation {3}
          { guard := { nesting := 1, state := ∅ }, flushes := [] }).flushes = [] ∧
      (exit_batch { guard := { nesting := 2, state := {5} }, flushes := [] }).flushes = [] ∧
      (exit_batch { guard := { nesting := 2, state := {5} }, flushes := [] }).guard.nesting =
        2 - 1 ∧
      (batch_run [{1}, {2}]
          { guard := { nesting := 0, state := ∅ }, flushes := [] }).flushes =
        [] ++ [union_all [{1}, {2}]] ∧
      (batch_run [{1}, {2}]
          { guard := { nesting := 0, state := ∅ }, flushes := [] }).guard.nesting = 0) :=
  ⟨by decide, by decide, rfl, rfl,
   invalidation_batch_spec
     { guard := { nesting := 0, state := ∅ }, flushes := [] }
     { guard := { nesting := 1, state := ∅ }, flushes := [] }
     { guard := { nesting := 2, state := {5} }, flushes := [] }
     { guard := { nesting := 0, state := ∅ }, flushes := [] }
     {3} [{1}, {2}] (by decide) (by decide) rfl rfl⟩

/-- Claim C7: for a `Dynamic<usize>` linked to a `Dynamic<String>` via
`linked_string()`: setting the string side to a value that fails to parse
leaves the numeric source unchanged; setting it to a valid numeric string
updates the numeric source to the parsed value; and a subsequent `set` on the
numeric source overwrites the string side with the canonical `to_string`
representation. -/
theorem linked_string_propagation (st : LinkState Nat String)
    (hT : st.tExec = false) (hR : st.rExec = false) (bad good : String)
    (n m fuel : Nat) (hf : 3 ≤ fuel) (hbad : string_to_usize bad = none)
    (hgood : string_to_usize good = some n) (hgne : good ≠ st.r)
    (hnt : n ≠ st.t) (hmt : m ≠ st.t)
    (hround : string_to_usize (usize_to_string m) = some m) :
    (link_set_r usize_to_string string_to_usize fuel bad st).t = st.t ∧
    (link_set_r usize_to_string string_to_usize fuel good st).t = n ∧
    (link_set_t usize_to_string string_to_usize fuel m st).t = m ∧
    (link_set_t usize_to_string string_to_usize fuel m st).r = usize_to_string m := by
  obtain ⟨k, rfl⟩ : ∃ k, fuel = k + 1 + 1 + 1 := ⟨fuel - 3, by omega⟩
  refine ⟨?_, ?_, ?_, ?_⟩
  · by_cases hbr : bad = st.r <;>
      simp [link_set_r, link_run, hbr, hR, hbad]
  · by_cases husn : usize_to_string n = good <;>
      simp [link_set_r, link_run, hgne, hR, hT, hgood, hnt, husn]
  · by_cases humr : usize_to_string m = st.r <;>
      simp [link_set_t, link_run, hmt, hR, hT, hround, humr]
  · by_cases humr : usize_to_string m = st.r <;>
      simp [link_set_t, link_run, hmt, hR, hT, hround, humr]

/-- Closed witness for claim C7: a linked pair holding 7 and its rendering,
written with a digit string that overflows a 64-bit `usize` (a failed parse,
so the numeric source must stay 7), a plus-signed valid numeric string
(which parses to 5), and a numeric update to 9. -/
theorem linked_string_propagation_witness :
    (link_set_r usize_to_string string_to_usize 3 ("18446744073709551616")
        { t := 7, r := ("7"), tExec := false, rExec := false }).t = 7 ∧
    (link_set_r usize_to_string string_to_usize 3 ("+5")
        { t := 7, r := ("7"), tExec := false, rExec := false }).t = 5 ∧
    (link_set_t usize_to_string string_to_usize 3 9
        { t := 7, r := ("7"), tExec := false, rExec := false }).t = 9 ∧
    (link_set_t usize_to_string string_to_usize 3 9
        { t := 7, r := ("7"), tExec := false, rExec := false }).r = usize_to_string 9 :=
  linked_string_propagation
    { t := 7, r := ("7"), tExec := false, rExec := false } rfl rfl
    ("18446744073709551616") ("+5") 5 9 3
    (by decide) (by decide) (by decide) (by decide) (by decide) (by decide) (by decide)

end Gooey
